import Mathlib

deriving instance DecidableEq for Except

/-!
Verification development for the Reichweiten-Analyse reporting pipeline
(`src/app.py`).  The pandas data flow is embedded shallowly: a table is a
list of typed rows, pandas column operations become list operations, and
float64 column arithmetic is modelled exactly (rationals plus explicit
NaN/inf markers).  Definitions follow the source functions line by line;
the section comments cite the corresponding lines of `src/app.py`.
-/

/-! ## Cell values

Join-key columns (`Dokument-ID`, `docID`) hold either strings or integers
before the pipeline casts them with `astype(str)` (app.py lines 387-388). -/

/-- A raw join-key cell: the string or int64 value a CSV column holds. -/
inductive CVal where
  | s (v : String)
  | i (v : Int)
deriving DecidableEq

/-- Python `str()` of a cell value, as applied by `astype(str)`. -/
def CVal.toStr : CVal → String
  | .s v => v
  | .i v => toString v

/-- `astype(str)` on a single cell (app.py lines 387-388). -/
def astype_str (v : CVal) : CVal := .s v.toStr

/-! ## float64 values

`Engagement_Rate` and `Unique_Visitor_Rate` are float64 columns.  Finite
doubles are carried as exact rationals; NaN and the two infinities are
explicit, because `fillna` replaces NaN but leaves infinities alone. -/

/-- A float64 cell: a finite value (exact rational), NaN, or an infinity. -/
inductive FVal where
  | num (q : ℚ)
  | nan
  | inf
  | neginf
deriving DecidableEq

/-- IEEE-754 division as performed by a pandas column division: `0/0` is
NaN and `x/0` is a signed infinity for nonzero finite `x`.  The pipeline
only ever divides two finite values; the remaining cases propagate NaN
and are present for totality. -/
def FVal.div : FVal → FVal → FVal
  | .num a, .num b =>
    if b = 0 then (if a = 0 then .nan else if 0 < a then .inf else .neginf)
    else .num (a / b)
  | _, _ => .nan

/-- Multiplication of a float64 cell by the literal `100` (finite and
positive, so infinities keep their sign and NaN propagates). -/
def FVal.mal100 : FVal → FVal
  | .num q => .num (q * 100)
  | .nan => .nan
  | .inf => .inf
  | .neginf => .neginf

/-- `Series.fillna(0)`: NaN becomes 0; every other value, infinities
included, is left unchanged. -/
def fillna0 : FVal → FVal
  | .nan => .num 0
  | v => v

/-- The finite value of a float64 cell (0 for the non-finite markers;
only applied to finite cells). -/
def FVal.toQ : FVal → ℚ
  | .num q => q
  | _ => 0

/-- `Series.mean()` of a float64 column with pandas defaults: NaN entries
are skipped (`skipna=True`), the mean of nothing is NaN, and any
remaining infinity dominates the sum (opposite infinities give NaN). -/
def fmean (l : List FVal) : FVal :=
  let v := l.filter (fun x => match x with | .nan => false | _ => true)
  if v.isEmpty then .nan
  else if v.contains .inf && v.contains .neginf then .nan
  else if v.contains .inf then .inf
  else if v.contains .neginf then .neginf
  else .num ((v.map FVal.toQ).sum / (v.length : ℚ))

/-! ## Character helpers

`String.splitOn` and `Nat.log2` do not reduce inside the kernel, so the
CSV reader and the timestamp parser work on `String.data` with their own
structural helpers. -/

/-- Splits a character list on a separator character; like Python's
`str.split(sep)`, `n` separators yield `n+1` (possibly empty) groups. -/
def splitOnChar (c : Char) : List Char → List (List Char)
  | [] => [[]]
  | x :: xs =>
    let r := splitOnChar c xs
    if x = c then [] :: r
    else
      match r with
      | [] => [[x]]
      | g :: gs => (x :: g) :: gs

/-- Numeric value of a decimal digit character. -/
def digitVal (c : Char) : ℕ := c.toNat - '0'.toNat

/-- Reads greedily up to `maxN` leading decimal digits, returning the
accumulated value, how many digits were read, and the rest. -/
def readDigits : ℕ → ℕ → ℕ → List Char → ℕ × ℕ × List Char
  | 0, acc, got, cs => (acc, got, cs)
  | _ + 1, acc, got, [] => (acc, got, [])
  | m + 1, acc, got, c :: cs =>
    if c.isDigit then readDigits m (acc * 10 + digitVal c) (got + 1) cs
    else (acc, got, c :: cs)

/-- Consumes one expected literal character. -/
def expectChar (c : Char) : List Char → Option (List Char)
  | [] => none
  | x :: xs => if x = c then some xs else none

/-! ## Loader (`load_data`, app.py lines 234-262)

`pd.read_csv` is modelled at the granularity `load_data`'s exception
handling distinguishes: an input without any non-blank line raises
`EmptyDataError`, a body line with more comma-separated fields than the
header raises `ParserError`, and otherwise a frame with the header's
column names is produced (rows with fewer fields are padded with NaN by
pandas and are accepted unchanged here). -/

/-- A parsed CSV frame: column names and raw string rows. -/
structure RawFrame where
  spalten : List String
  zeilen : List (List String)
deriving DecidableEq

/-- The two `pandas.errors` exceptions `load_data` handles specially. -/
inductive PdFehler where
  | emptyData
  | parserError
deriving DecidableEq

/-- `pd.read_csv` on the uploaded text (app.py line 241), at the
granularity described above. -/
def read_csv (quelle : String) : Except PdFehler RawFrame :=
  let lines := (splitOnChar '\n' quelle.data).filter (fun l => !l.isEmpty)
  match lines with
  | [] => .error .emptyData
  | header :: body =>
    let cols := (splitOnChar ',' header).map (fun cs => String.mk cs)
    if body.any (fun l => Nat.blt cols.length (splitOnChar ',' l).length) then
      .error .parserError
    else
      .ok ⟨cols, body.map (fun l => (splitOnChar ',' l).map (fun cs => String.mk cs))⟩

/-- The exception classes of app.py section 1.1 that `load_data` can
surface to its caller. -/
inductive FehlerArt where
  | fileLoadError
  | dataValidationError
  | dataProcessingError
deriving DecidableEq

/-- An exception raised inside `load_data`'s `try` block. -/
inductive PyAusnahme where
  | emptyData
  | parserError
  | fileLoadError (msg : String)
  | dataValidationError (msg : String)
deriving DecidableEq

/-- Required columns per file type (app.py lines 244-247). -/
def required_columns (fileType : String) : List String :=
  if fileType = "inhaltsbericht" then ["Markenname", "Dokument-ID", "Inhaltstitel"]
  else ["docID", "Seitenaufrufe"]

/-- The body of `load_data`'s `try` block (app.py lines 238-255): the
`None` check, `pd.read_csv`, file-type detection by presence of
`Markenname`, and the required-column validation. -/
def load_data_body (datei : Option String) : Except PyAusnahme RawFrame :=
  match datei with
  | none => .error (.fileLoadError "Keine Datei ausgewählt")
  | some quelle =>
    match read_csv quelle with
    | .error .emptyData => .error .emptyData
    | .error .parserError => .error .parserError
    | .ok df =>
      let fileType := if df.spalten.contains "Markenname" then "inhaltsbericht" else "seitenaufrufe"
      let missing := (required_columns fileType).filter (fun col => !df.spalten.contains col)
      if missing.isEmpty then .ok df
      else .error (.dataValidationError "Fehlende Spalten")

/-- `load_data` (app.py lines 234-262) with its exception handlers: an
`EmptyDataError` is re-raised as a `DataValidationError`, a `ParserError`
as a `FileLoadError`, and any other exception raised inside the `try`
block — including the `FileLoadError` for a missing file and the
`DataValidationError` for missing columns, both subclasses of
`Exception` — is caught by the final `except Exception` clause and
wrapped in a generic `DataProcessingError`. -/
def load_data (datei : Option String) : Except (FehlerArt × String) RawFrame :=
  match load_data_body datei with
  | .ok df => .ok df
  | .error .emptyData => .error (.dataValidationError, "Die Datei enthält keine Daten")
  | .error .parserError => .error (.fileLoadError, "Fehler beim Parsen der CSV-Datei")
  | .error (.fileLoadError msg) => .error (.dataProcessingError, "Unerwarteter Fehler: " ++ msg)
  | .error (.dataValidationError msg) => .error (.dataProcessingError, "Unerwarteter Fehler: " ++ msg)

/-! ## Row types

`analyze_msn_data` works with two input tables whose columns are fixed by
the required-column validation and the column selection at app.py lines
405-419.  Numeric view counts are int64 columns (naturals in the data). -/

/-- One row of the content catalog (`Inhaltsbericht`), restricted to the
columns the pipeline reads. -/
structure InhaltsRow where
  markenname : String
  dokumentId : CVal
  inhaltstitel : String
  quellId : String
  canonicalUrl : String
  veroeffentlichteUrl : String
  inhaltsstatus : String
  datumBearbeitung : String
  erstellungsdatum : String
deriving DecidableEq

/-- One row of the page-view table (`Seitenaufrufe`). -/
structure SeitenRow where
  docId : CVal
  titel : String
  seitenaufrufe : ℕ
  eindeutigeBenutzer : ℕ
  likes : ℕ
  kommentare : ℕ
deriving DecidableEq

/-- One row of the aggregated page-view table produced by
`seitenaufrufe_df.groupby('docID', observed=True)[agg_cols].sum()`
(app.py lines 391-395).  `agg_cols` selects exactly the four numeric
columns, so the aggregate holds the key and the four sums and nothing
else — in particular no title column. -/
structure AggRow where
  docId : CVal
  seitenaufrufe : ℕ
  eindeutigeBenutzer : ℕ
  likes : ℕ
  kommentare : ℕ
deriving DecidableEq

/-- One row of `merged_data` after the column selection of app.py lines
405-419: the nine catalog columns plus the four view columns, the latter
still optional because a left join leaves them NaN when no view row
matched (`fillna(0)` runs afterwards, lines 420-421). -/
structure PreMergedRow where
  markenname : String
  dokumentId : CVal
  inhaltstitel : String
  quellId : String
  canonicalUrl : String
  veroeffentlichteUrl : String
  inhaltsstatus : String
  datumBearbeitung : String
  erstellungsdatum : String
  seitenaufrufe : Option ℕ
  eindeutigeBenutzer : Option ℕ
  likes : Option ℕ
  kommentare : Option ℕ
deriving DecidableEq

/-- One row of `result` after `fillna(0)` (app.py lines 420-421). -/
structure ResultRow0 where
  markenname : String
  dokumentId : CVal
  inhaltstitel : String
  quellId : String
  canonicalUrl : String
  veroeffentlichteUrl : String
  inhaltsstatus : String
  datumBearbeitung : String
  erstellungsdatum : String
  seitenaufrufe : ℕ
  eindeutigeBenutzer : ℕ
  likes : ℕ
  kommentare : ℕ
deriving DecidableEq

/-- A parsed timestamp (the value of the `Datum` column). -/
structure Datum where
  tag : ℕ
  monat : ℕ
  jahr : ℕ
  stunde : ℕ
  minute : ℕ
  sekunde : ℕ
deriving DecidableEq

/-- `result` after `add_time_analysis` added the four derived columns
(app.py lines 332-347). -/
structure ResultRowT extends ResultRow0 where
  datum : Datum
  wochentag : String
  stunde : ℕ
  tageszeit : Option String
deriving DecidableEq

/-- `result` after `calculate_extended_metrics` added the two rate
columns (app.py lines 349-361). -/
structure ResultRow extends ResultRowT where
  engagementRate : FVal
  uniqueVisitorRate : FVal
deriving DecidableEq

/-! ## Time analysis (`add_time_analysis`, app.py lines 332-347) -/

/-- Gregorian leap-year rule, as used by `datetime` when validating a
day-of-month. -/
def schaltjahr (j : ℕ) : Bool := (j % 4 == 0 && j % 100 != 0) || j % 400 == 0

/-- Days in a month, used to validate the day field of a timestamp. -/
def tageImMonat (j m : ℕ) : ℕ :=
  if m = 2 then (if schaltjahr j then 29 else 28)
  else if m = 4 || m = 6 || m = 9 || m = 11 then 30
  else 31

/-- strptime with the fixed format `%d.%m.%Y, %H:%M:%S` (app.py line
338): day, month and hour/minute/second match one or two digits, the year
up to four, the literal separators must appear exactly, no input may
remain, and the fields must form a valid calendar date and time of day. -/
def parse_timestamp (s : String) : Option Datum :=
  let p1 := readDigits 2 0 0 s.data
  let tag := p1.1
  if p1.2.1 = 0 then none else
  match expectChar '.' p1.2.2 with
  | none => none
  | some r1 =>
    let p2 := readDigits 2 0 0 r1
    let monat := p2.1
    if p2.2.1 = 0 then none else
    match expectChar '.' p2.2.2 with
    | none => none
    | some r2 =>
      let p3 := readDigits 4 0 0 r2
      let jahr := p3.1
      if p3.2.1 = 0 then none else
      match (expectChar ',' p3.2.2).bind (expectChar ' ') with
      | none => none
      | some r3 =>
        let p4 := readDigits 2 0 0 r3
        let stunde := p4.1
        if p4.2.1 = 0 then none else
        match expectChar ':' p4.2.2 with
        | none => none
        | some r4 =>
          let p5 := readDigits 2 0 0 r4
          let minute := p5.1
          if p5.2.1 = 0 then none else
          match expectChar ':' p5.2.2 with
          | none => none
          | some r5 =>
            let p6 := readDigits 2 0 0 r5
            let sekunde := p6.1
            if p6.2.1 = 0 then none else
            if !p6.2.2.isEmpty then none else
            if 1 ≤ monat && monat ≤ 12 && 1 ≤ jahr
                && 1 ≤ tag && tag ≤ tageImMonat jahr monat
                && stunde ≤ 23 && minute ≤ 59 && sekunde ≤ 59 then
              some ⟨tag, monat, jahr, stunde, minute, sekunde⟩
            else none

/-- `pd.to_datetime(column, format='%d.%m.%Y, %H:%M:%S')` with the
default `errors='raise'` (app.py lines 336-339): the whole column parses,
or the first unparsable value raises a `ValueError`.  There is no
`errors='coerce'` in the call, so nothing is coerced to `NaT`. -/
def to_datetime_strict : List String → Except String (List Datum)
  | [] => .ok []
  | v :: vs =>
    match parse_timestamp v with
    | none => .error ("time data " ++ v ++ " does not match format %d.%m.%Y, %H:%M:%S")
    | some d => (to_datetime_strict vs).map (fun ds => d :: ds)

/-- `Series.dt.day_name()` via Sakamoto's day-of-week formula
(0 = Sunday). -/
def day_name (d : Datum) : String :=
  let t := [0, 3, 2, 5, 0, 3, 5, 1, 4, 6, 2, 4]
  let j := if d.monat < 3 then d.jahr - 1 else d.jahr
  let idx := (j + j / 4 - j / 100 + j / 400 + t.getD (d.monat - 1) 0 + d.tag) % 7
  ["Sunday", "Monday", "Tuesday", "Wednesday", "Thursday", "Friday", "Saturday"].getD idx ""

/-- `pd.cut(df['Stunde'], bins=[0, 6, 12, 18, 24], labels=['Nacht',
'Morgen', 'Mittag', 'Abend'])` (app.py lines 342-346).  With pandas
defaults (`right=True`, `include_lowest=False`) the bins are the
right-closed intervals (0,6], (6,12], (12,18], (18,24]; an hour of 0
falls in no bin and yields NaN (`none`). -/
def tageszeit_of (stunde : ℕ) : Option String :=
  if 0 < stunde ∧ stunde ≤ 6 then some "Nacht"
  else if 6 < stunde ∧ stunde ≤ 12 then some "Morgen"
  else if 12 < stunde ∧ stunde ≤ 18 then some "Mittag"
  else if 18 < stunde ∧ stunde ≤ 24 then some "Abend"
  else none

/-- `add_time_analysis` (app.py lines 332-347): parse the
creation/update column with the fixed format — raising on the first
unparsable value — then derive `Wochentag`, `Stunde` and `Tageszeit`. -/
def add_time_analysis (rows : List ResultRow0) : Except String (List ResultRowT) :=
  (to_datetime_strict (rows.map (fun r => r.erstellungsdatum))).map (fun ds =>
    (rows.zip ds).map (fun p =>
      { toResultRow0 := p.1
        datum := p.2
        wochentag := day_name p.2
        stunde := p.2.stunde
        tageszeit := tageszeit_of p.2.stunde }))

/-! ## Extended metrics (`calculate_extended_metrics`, app.py lines
349-361) -/

/-- `(df['Likes'] + df['Kommentare']) / df['Seitenaufrufe'] * 100`
followed by `.fillna(0)`, on one row.  `fillna` only replaces the NaN
produced by `0/0`; a positive numerator over a zero denominator stays
`+inf`. -/
def engagement_rate (likes kommentare seitenaufrufe : ℕ) : FVal :=
  fillna0 ((FVal.div (.num ((likes + kommentare : ℕ) : ℚ)) (.num (seitenaufrufe : ℚ))).mal100)

/-- `df['Eindeutige Benutzer'] / df['Seitenaufrufe'] * 100` followed by
`.fillna(0)`, on one row. -/
def unique_visitor_rate (eindeutigeBenutzer seitenaufrufe : ℕ) : FVal :=
  fillna0 ((FVal.div (.num (eindeutigeBenutzer : ℚ)) (.num (seitenaufrufe : ℚ))).mal100)

/-- `calculate_extended_metrics` (app.py lines 349-361). -/
def calculate_extended_metrics (rows : List ResultRowT) : List ResultRow :=
  rows.map (fun r =>
    { toResultRowT := r
      engagementRate := engagement_rate r.likes r.kommentare r.seitenaufrufe
      uniqueVisitorRate := unique_visitor_rate r.eindeutigeBenutzer r.seitenaufrufe })

/-! ## Merge pipeline (`analyze_msn_data`, app.py lines 374-424, and
`DataFrameOptimizer.efficient_merge`, lines 127-149) -/

/-- `inhaltsbericht_df[inhaltsbericht_df['Markenname'].isin(portale)]`
(app.py lines 383-384): keep the catalog rows whose brand is in the
allow-list, in order. -/
def filter_portale (rows : List InhaltsRow) (portale : List String) : List InhaltsRow :=
  rows.filter (fun r => portale.contains r.markenname)

/-- `inhaltsbericht_df['Dokument-ID'] = ...astype(str)` (app.py line
387). -/
def cast_inhalt (rows : List InhaltsRow) : List InhaltsRow :=
  rows.map (fun r => { r with dokumentId := astype_str r.dokumentId })

/-- `seitenaufrufe_df['docID'] = ...astype(str)` (app.py line 388). -/
def cast_seiten (rows : List SeitenRow) : List SeitenRow :=
  rows.map (fun r => { r with docId := astype_str r.docId })

/-- The distinct group keys of `groupby('docID')`.  pandas emits the
groups sorted by key; no property stated below depends on the order of
the aggregated rows, so the order `List.dedup` produces is used. -/
def group_keys (rows : List SeitenRow) : List CVal :=
  (rows.map (fun r => r.docId)).dedup

/-- `seitenaufrufe_df.groupby('docID', observed=True)[agg_cols].sum()
.reset_index()` (app.py lines 390-395): one row per distinct `docID`
holding the four column sums over that key's rows.  The title column is
not in `agg_cols` and is dropped. -/
def aggregate_seitenaufrufe (rows : List SeitenRow) : List AggRow :=
  (group_keys rows).map (fun k =>
    let grp := rows.filter (fun r => r.docId == k)
    { docId := k
      seitenaufrufe := (grp.map (fun r => r.seitenaufrufe)).sum
      eindeutigeBenutzer := (grp.map (fun r => r.eindeutigeBenutzer)).sum
      likes := (grp.map (fun r => r.likes)).sum
      kommentare := (grp.map (fun r => r.kommentare)).sum })

/-- Builds one merged row from a catalog row and, when the join key
matched, the aggregated view row; the four numeric fields are NaN
(`none`) when nothing matched. -/
def merged_row_of (c : InhaltsRow) (a : Option AggRow) : PreMergedRow :=
  { markenname := c.markenname
    dokumentId := c.dokumentId
    inhaltstitel := c.inhaltstitel
    quellId := c.quellId
    canonicalUrl := c.canonicalUrl
    veroeffentlichteUrl := c.veroeffentlichteUrl
    inhaltsstatus := c.inhaltsstatus
    datumBearbeitung := c.datumBearbeitung
    erstellungsdatum := c.erstellungsdatum
    seitenaufrufe := a.map (fun x => x.seitenaufrufe)
    eindeutigeBenutzer := a.map (fun x => x.eindeutigeBenutzer)
    likes := a.map (fun x => x.likes)
    kommentare := a.map (fun x => x.kommentare) }

/-- `pd.merge(df1_slim, df2_slim, left_on='Dokument-ID',
right_on='docID', how='left')` inside `efficient_merge` (app.py lines
127-149): every left row, in order, paired with each matching right row
in right order, or with NaN fields when nothing matches.  The
`set_index` calls before the merge only change the frames' indexes,
which `pd.merge` ignores here, and `optimize_memory_usage` at line 149
does not change the row structure. -/
def efficient_merge (cat : List InhaltsRow) (agg : List AggRow) : List PreMergedRow :=
  cat.flatMap (fun c =>
    let ms := agg.filter (fun a => a.docId == c.dokumentId)
    if ms.isEmpty then [merged_row_of c none]
    else ms.map (fun a => merged_row_of c (some a)))

/-- The column selection and `fillna(0)` on the four numeric columns
(app.py lines 405-421). -/
def select_fillna (p : PreMergedRow) : ResultRow0 :=
  { markenname := p.markenname
    dokumentId := p.dokumentId
    inhaltstitel := p.inhaltstitel
    quellId := p.quellId
    canonicalUrl := p.canonicalUrl
    veroeffentlichteUrl := p.veroeffentlichteUrl
    inhaltsstatus := p.inhaltsstatus
    datumBearbeitung := p.datumBearbeitung
    erstellungsdatum := p.erstellungsdatum
    seitenaufrufe := p.seitenaufrufe.getD 0
    eindeutigeBenutzer := p.eindeutigeBenutzer.getD 0
    likes := p.likes.getD 0
    kommentare := p.kommentare.getD 0 }

/-- `optimize_memory_usage` applied to the catalog frame (app.py line
379) at the value level.  At this schema the rewrite touches only the
storage dtypes: string columns may become categorical and in-range
integers narrower, neither of which changes a cell value (the cell-level
model and proof are below, section "Memory optimizer").  The frame copy
it starts with is modelled in the store embedding. -/
def optimize_memory_usage_inhalt (rows : List InhaltsRow) : List InhaltsRow := rows

/-- `optimize_memory_usage` applied to the page-view frame (app.py line
380) at the value level; see `optimize_memory_usage_inhalt`. -/
def optimize_memory_usage_seiten (rows : List SeitenRow) : List SeitenRow := rows

/-- The merge phase of `analyze_msn_data` (app.py lines 378-421): memory
optimization, brand filter, key casts, aggregation, left merge, column
selection, `fillna(0)`.  The `optimize_memory_usage` call inside
`efficient_merge` can narrow the post-merge float columns to float32;
that affects only values above `2^24`, none of which occur in the
properties stated below (zeros and row multiplicities). -/
def merge_result (cat : List InhaltsRow) (seiten : List SeitenRow) (portale : List String) :
    List ResultRow0 :=
  (efficient_merge
      (cast_inhalt (filter_portale (optimize_memory_usage_inhalt cat) portale))
      (aggregate_seitenaufrufe (cast_seiten (optimize_memory_usage_seiten seiten)))).map
    select_fillna

/-! ## Sorting (app.py line 424)

`result.sort_values('Seitenaufrufe', ascending=False)` uses numpy's
default quicksort, whose contract is only: the output is a permutation
of the input ordered descending by the key.  Quicksort is not a stable
sort, so which order tied rows appear in is not specified.
`sort_values_vertrag` is that contract; `sort_values` is one executable
refinement of it (a stable insertion sort happens to satisfy the
contract, as any correct sort does). -/

/-- Comparison used for the descending sort on `Seitenaufrufe`. -/
def absteigend (a b : ResultRow) : Prop := b.seitenaufrufe ≤ a.seitenaufrufe

instance : DecidableRel absteigend := fun a b => Nat.decLe b.seitenaufrufe a.seitenaufrufe

instance : IsTotal ResultRow absteigend := ⟨fun a b => Nat.le_total b.seitenaufrufe a.seitenaufrufe⟩

instance : IsTrans ResultRow absteigend := ⟨fun _ _ _ h1 h2 => Nat.le_trans h2 h1⟩

/-- The contract of `sort_values('Seitenaufrufe', ascending=False)` with
the default (unstable) quicksort: a permutation of the input, ordered
descending by page views. -/
def sort_values_vertrag (eingabe ausgabe : List ResultRow) : Prop :=
  ausgabe.Perm eingabe ∧ ausgabe.Pairwise absteigend

/-- Preservation of the relative order of rows tied on the sort key —
what a stable sort would additionally guarantee. -/
def ties_erhalten (eingabe ausgabe : List ResultRow) : Prop :=
  ∀ k, ausgabe.filter (fun r => r.seitenaufrufe == k)
      = eingabe.filter (fun r => r.seitenaufrufe == k)

/-- One executable refinement of `sort_values_vertrag`. -/
def sort_values (rows : List ResultRow) : List ResultRow :=
  List.insertionSort absteigend rows

/-! ## Per-portal statistics (app.py lines 363-372 and 426-444) -/

/-- Mean of the `Seitenaufrufe` column over a nonempty row selection. -/
def mean_aufrufe (rows : List ResultRow) : ℚ :=
  ((rows.map (fun r => r.seitenaufrufe)).sum : ℚ) / (rows.length : ℚ)

/-- The four `Tageszeit` categories in the categorical (bin) order
`pd.cut` assigns, which is the order `groupby('Tageszeit')` emits. -/
def tageszeit_kategorien : List String := ["Nacht", "Morgen", "Mittag", "Abend"]

/-- `get_top_tageszeit` (app.py lines 363-372): over the portal's rows,
group by `Tageszeit` (`observed=True` keeps only categories that occur;
rows with a NaN bucket are dropped by groupby), take the mean of
`Seitenaufrufe` per group, and return `idxmax` — the first group, in
category order, attaining the maximal mean.  The groups are nonempty, so
no mean is NaN and the `isna().all()` guard coincides with the
no-observed-category case; `fillna(0)` before `idxmax` is then the
identity. -/
def get_top_tageszeit (portal_data : List ResultRow) : String :=
  if portal_data.isEmpty then "Keine Daten"
  else
    let beobachtet := tageszeit_kategorien.filter
      (fun b => portal_data.any (fun r => r.tageszeit == some b))
    let stats := beobachtet.map
      (fun b => (b, mean_aufrufe (portal_data.filter (fun r => r.tageszeit == some b))))
    match stats with
    | [] => "Keine Daten"
    | x :: xs => (xs.foldl (fun best p => if best.2 < p.2 then p else best) x).1

/-- One entry of the `portal_stats` dictionary (app.py lines 429-444). -/
structure PortalStat where
  artikel : ℕ
  gesamtaufrufe : ℕ
  durchschnitt : ℚ
  topTageszeit : String
  durchschnittlEngagement : FVal
deriving DecidableEq

/-- The statistics record for one portal's row selection: the
computed statistics when rows match, the literal zero/`'Keine Daten'`
record otherwise (the `if not portal_data.empty ... else` of app.py
lines 429-444). -/
def portal_stat_of (portal_data : List ResultRow) : PortalStat :=
  if portal_data.isEmpty then
    { artikel := 0
      gesamtaufrufe := 0
      durchschnitt := 0
      topTageszeit := "Keine Daten"
      durchschnittlEngagement := .num 0 }
  else
    { artikel := portal_data.length
      gesamtaufrufe := (portal_data.map (fun r => r.seitenaufrufe)).sum
      durchschnitt := mean_aufrufe portal_data
      topTageszeit := get_top_tageszeit portal_data
      durchschnittlEngagement := fmean (portal_data.map (fun r => r.engagementRate)) }

/-- The `for portal in portale` loop building `portal_stats` (app.py
lines 426-444): every configured portal gets exactly one entry, keyed by
the portal name. -/
def analyze_portal_stats (result : List ResultRow) (portale : List String) :
    List (String × PortalStat) :=
  portale.map (fun p => (p, portal_stat_of (result.filter (fun r => r.markenname == p))))

/-- The `summary` dictionary (app.py lines 446-454). -/
structure Summary where
  gesamtzahlArtikel : ℕ
  artikelMitAufrufen : ℕ
  gesamteSeitenaufrufe : ℕ
  durchschnittSeitenaufrufe : FVal
  gesamteLikes : ℕ
  gesamteKommentare : ℕ
  durchschnittlEngagementRate : FVal
deriving DecidableEq

/-- Builds the `summary` dictionary; the mean of an empty float column
is NaN. -/
def summary_of (result : List ResultRow) : Summary :=
  { gesamtzahlArtikel := result.length
    artikelMitAufrufen := (result.filter (fun r => 0 < r.seitenaufrufe)).length
    gesamteSeitenaufrufe := (result.map (fun r => r.seitenaufrufe)).sum
    durchschnittSeitenaufrufe := if result.isEmpty then .nan else .num (mean_aufrufe result)
    gesamteLikes := (result.map (fun r => r.likes)).sum
    gesamteKommentare := (result.map (fun r => r.kommentare)).sum
    durchschnittlEngagementRate := fmean (result.map (fun r => r.engagementRate)) }

/-- The enrichment of the merge result: `add_time_analysis` followed by
`calculate_extended_metrics` (app.py lines 422-423) — the rows as they
stand right before the sort. -/
def enriched_rows (cat : List InhaltsRow) (seiten : List SeitenRow) (portale : List String) :
    Except String (List ResultRow) :=
  (add_time_analysis (merge_result cat seiten portale)).map calculate_extended_metrics

/-- `analyze_msn_data` (app.py lines 374-456): the merge phase, the two
enrichment steps (`pd.to_datetime` may raise, aborting the analysis),
the descending sort, and the summary and per-portal statistics, all
computed from the sorted result. -/
def analyze_msn_data (cat : List InhaltsRow) (seiten : List SeitenRow) (portale : List String) :
    Except String (List ResultRow × Summary × List (String × PortalStat)) :=
  match enriched_rows cat seiten portale with
  | .error e => .error e
  | .ok rows =>
    let result := sort_values rows
    .ok (result, summary_of result, analyze_portal_stats result portale)

/-! ## Memory optimizer (`DataFrameOptimizer.optimize_memory_usage`,
app.py lines 97-124), cell-level model

The typed pipeline above holds string and natural-number cells, on which
the dtype rewrite is value-preserving; this model makes the rewrite
itself precise, column by column, over arbitrary object / intNN /
floatNN columns, so that what it does and does not preserve can be
stated exactly. -/

/-- The value of one cell, independent of the column's storage dtype. -/
inductive ZellWert where
  | s (v : String)
  | z (v : Int)
  | f (v : FVal)
deriving DecidableEq

/-- One pandas column: an object/categorical string column, an integer
column of a given bit width, or a float column (64- or 32-bit). -/
inductive Spalte where
  | obj (istKategorie : Bool) (zellen : List String)
  | ints (breite : ℕ) (zellen : List Int)
  | floats (ist32 : Bool) (zellen : List FVal)
deriving DecidableEq

/-- The cell values a column holds, forgetting the storage dtype. -/
def Spalte.werte : Spalte → List ZellWert
  | .obj _ z => z.map .s
  | .ints _ z => z.map .z
  | .floats _ z => z.map .f

/-- Whether a column is a float column (the one kind the optimizer
rewrites lossily). -/
def Spalte.istFloat : Spalte → Bool
  | .floats _ _ => true
  | _ => false

/-- `Series.nunique()` on an object column. -/
def nunique (zellen : List String) : ℕ := zellen.dedup.length

/-- `np.iinfo(int<b>).min`. -/
def iinfo_min (b : ℕ) : Int := -(2 ^ (b - 1))

/-- `np.iinfo(int<b>).max`. -/
def iinfo_max (b : ℕ) : Int := 2 ^ (b - 1) - 1

/-- `astype(np.int<b>)` on one cell: two's-complement wrap-around into
`b` bits (the identity whenever the value already fits, which the
optimizer's strict bound checks guarantee). -/
def astype_int (b : ℕ) (v : Int) : Int :=
  (v + 2 ^ (b - 1)) % 2 ^ b - 2 ^ (b - 1)

/-- `series.min()` of a nonempty integer column. -/
def list_min (v : Int) (vs : List Int) : Int := vs.foldl min v

/-- `series.max()` of a nonempty integer column. -/
def list_max (v : Int) (vs : List Int) : Int := vs.foldl max v

/-- Floor of the base-2 logarithm, by structural recursion (`Nat.log2`
itself does not reduce inside the kernel). -/
def log2fuel : ℕ → ℕ → ℕ
  | 0, _ => 0
  | fuel + 1, n => if n ≥ 2 then log2fuel fuel (n / 2) + 1 else 0

/-- Floor of the base-2 logarithm of a natural number. -/
def mylog2 (n : ℕ) : ℕ := log2fuel n n

/-- The rational power of two `2 ^ e` (for integer `e`), phrased over
`Nat.pow` so that it evaluates fast inside the kernel. -/
def zweiHoch (e : ℤ) : ℚ :=
  if 0 ≤ e then ((2 ^ e.toNat : ℕ) : ℚ) else 1 / ((2 ^ (-e).toNat : ℕ) : ℚ)

/-- Round half to even (the IEEE-754 default rounding), to the nearest
integer. -/
def rhe (q : ℚ) : ℤ :=
  let f := ⌊q⌋
  let r := q - (f : ℚ)
  if r < 1 / 2 then f else if 1 / 2 < r then f + 1 else if f % 2 = 0 then f else f + 1

/-- The binade of a positive rational: the unique `e` with
`2 ^ e ≤ a < 2 ^ (e + 1)` (the log-difference of numerator and
denominator is off by at most one, which the comparison corrects). -/
def binExpQ (a : ℚ) : ℤ :=
  if zweiHoch ((mylog2 a.num.natAbs : ℤ) - (mylog2 a.den : ℤ)) ≤ a
  then (mylog2 a.num.natAbs : ℤ) - (mylog2 a.den : ℤ)
  else (mylog2 a.num.natAbs : ℤ) - (mylog2 a.den : ℤ) - 1

/-- The exponent of the rounding step for a positive value: 23 below its
binade, clamped at the float32 subnormal floor `2 ^ (-126)`. -/
def f32_scale_exp (a : ℚ) : ℤ :=
  (if binExpQ a < -126 then -126 else binExpQ a) - 23

/-- Rounding a positive finite float64 value to the float32 grid: round
half-to-even to a multiple of `2 ^ f32_scale_exp a`. -/
def f32_runden_pos (a : ℚ) : ℚ :=
  (rhe (a / zweiHoch (f32_scale_exp a)) : ℚ) * zweiHoch (f32_scale_exp a)

/-- Rounding one finite float64 value to float32 (`astype(np.float32)`):
round the 24-bit significand half-to-even at the value's binade (clamped
at the subnormal floor), overflowing to an infinity beyond the float32
range. -/
def f32_runden_q (q : ℚ) : FVal :=
  if q = 0 then .num 0
  else if zweiHoch 128 ≤ f32_runden_pos (if q < 0 then -q else q) then
    (if 0 < q then .inf else .neginf)
  else .num (if 0 < q then f32_runden_pos (if q < 0 then -q else q)
             else -f32_runden_pos (if q < 0 then -q else q))

/-- `astype(np.float32)` on one float64 cell: NaN and infinities are
preserved, finite values are rounded to float32 precision. -/
def f32_runden : FVal → FVal
  | .num q => f32_runden_q q
  | v => v

/-- The per-column body of `optimize_memory_usage`'s loop (app.py lines
102-122): object columns become categorical when fewer than half the
values are distinct (at zero rows the source divides by zero and raises;
the rational comparison used here then categorizes instead — either way
no cell value changes); integer columns are downcast to the narrowest
width whose open interval `(iinfo.min, iinfo.max)` strictly contains
their min and max (an empty column's NaN min/max fail every comparison);
float columns are always cast to float32. -/
def optimize_spalte : Spalte → Spalte
  | .obj true z => .obj true z
  | .obj false z =>
    if ((nunique z : ℚ) / (z.length : ℚ) < 1 / 2) then .obj true z else .obj false z
  | .ints b z =>
    match z with
    | [] => .ints b []
    | v :: vs =>
      let mn := list_min v vs
      let mx := list_max v vs
      if iinfo_min 8 < mn ∧ mx < iinfo_max 8 then .ints 8 ((v :: vs).map (astype_int 8))
      else if iinfo_min 16 < mn ∧ mx < iinfo_max 16 then .ints 16 ((v :: vs).map (astype_int 16))
      else if iinfo_min 32 < mn ∧ mx < iinfo_max 32 then .ints 32 ((v :: vs).map (astype_int 32))
      else .ints b (v :: vs)
  | .floats _ z => .floats true (z.map f32_runden)

/-- `optimize_memory_usage` (app.py lines 97-124): the column loop over
a copied frame, here as the list of the frame's columns. -/
def optimize_memory_usage (df : List Spalte) : List Spalte :=
  df.map optimize_spalte

/-! ## Store model of `analyze_msn_data`

Pandas frames are heap objects: boolean indexing, `groupby(...).sum()`,
`pd.merge`, `.copy()` and `sort_values` return fresh frames, while
`df[col] = ...` mutates the frame in place.  The store is the list of
allocated frames; a dataframe variable is an index into it.  The
transcription below follows app.py lines 378-424 step by step, so that
"the caller's input frames are never written to" is a provable statement
rather than a convention. -/

/-- A frame value at any stage of the pipeline. -/
inductive PWert where
  | inh (rows : List InhaltsRow)
  | sei (rows : List SeitenRow)
  | agg (rows : List AggRow)
  | pre (rows : List PreMergedRow)
  | res0 (rows : List ResultRow0)
  | resT (rows : List ResultRowT)
  | res (rows : List ResultRow)
deriving DecidableEq

/-- The heap of allocated frames. -/
abbrev Store := List PWert

/-- Allocates a fresh frame, returning the new store and the frame's
reference. -/
def alloc (s : Store) (v : PWert) : Store × ℕ := (s ++ [v], s.length)

/-- In-place mutation of the frame at a reference (a pandas column
assignment). -/
def schreib (s : Store) (r : ℕ) (v : PWert) : Store := s.set r v

/-- Reads a catalog frame (defaulting to an empty frame on a dangling or
wrongly-typed reference, which the pipeline never produces). -/
def readInh (s : Store) (r : ℕ) : List InhaltsRow :=
  match s[r]? with
  | some (.inh rows) => rows
  | _ => []

/-- Reads a page-view frame. -/
def readSei (s : Store) (r : ℕ) : List SeitenRow :=
  match s[r]? with
  | some (.sei rows) => rows
  | _ => []

/-- Reads an aggregated-view frame. -/
def readAgg (s : Store) (r : ℕ) : List AggRow :=
  match s[r]? with
  | some (.agg rows) => rows
  | _ => []

/-- Reads a merged frame. -/
def readPre (s : Store) (r : ℕ) : List PreMergedRow :=
  match s[r]? with
  | some (.pre rows) => rows
  | _ => []

/-- Reads a result frame before time analysis. -/
def readRes0 (s : Store) (r : ℕ) : List ResultRow0 :=
  match s[r]? with
  | some (.res0 rows) => rows
  | _ => []

/-- Reads a result frame after time analysis. -/
def readResT (s : Store) (r : ℕ) : List ResultRowT :=
  match s[r]? with
  | some (.resT rows) => rows
  | _ => []

/-- Reads a fully enriched result frame. -/
def readRes (s : Store) (r : ℕ) : List ResultRow :=
  match s[r]? with
  | some (.res rows) => rows
  | _ => []

/-- The merge phase of `analyze_msn_data` (app.py lines 378-421) at the
store level; returns the store and the reference of the `result` frame.
Each `df.copy()`, boolean indexing, `groupby(...).sum().reset_index()`,
`set_index` rebinding, `pd.merge` and `[[...]].copy()` allocates; the
two `astype(str)` column assignments (lines 387-388) and the
`fillna(0)` assignment (lines 420-421) write in place. -/
def merge_phase_st (s0 : Store) (rI rS : ℕ) (portale : List String) : Store × ℕ :=
  let p1 := alloc s0 (.inh (optimize_memory_usage_inhalt (readInh s0 rI)))
  let p2 := alloc p1.1 (.sei (optimize_memory_usage_seiten (readSei p1.1 rS)))
  let p3 := alloc p2.1 (.inh (filter_portale (readInh p2.1 p1.2) portale))
  let s4 := schreib p3.1 p3.2 (.inh (cast_inhalt (readInh p3.1 p3.2)))
  let s5 := schreib s4 p2.2 (.sei (cast_seiten (readSei s4 p2.2)))
  let p6 := alloc s5 (.agg (aggregate_seitenaufrufe (readSei s5 p2.2)))
  let p7 := alloc p6.1 (.inh (readInh p6.1 p3.2))
  let p8 := alloc p7.1 (.agg (readAgg p7.1 p6.2))
  let p9 :=
    if ((readInh p8.1 p7.2).map (fun r => r.dokumentId)).Nodup then (p8.1, p7.2)
    else alloc p8.1 (.inh (readInh p8.1 p7.2))
  let p10 :=
    if ((readAgg p9.1 p8.2).map (fun r => r.docId)).Nodup then (p9.1, p8.2)
    else alloc p9.1 (.agg (readAgg p9.1 p8.2))
  let p11 := alloc p10.1 (.pre (efficient_merge (readInh p10.1 p9.2) (readAgg p10.1 p10.2)))
  let p12 := alloc p11.1 (.pre (readPre p11.1 p11.2))
  let p13 := alloc p12.1 (.pre (readPre p12.1 p12.2))
  let s14 := schreib p13.1 p13.2 (.res0 ((readPre p13.1 p13.2).map select_fillna))
  (s14, p13.2)

/-- The enrichment-and-sort phase of `analyze_msn_data` at the store
level (app.py lines 422-456), applied to the `result` frame the merge
phase produced: `add_time_analysis` — whose `pd.to_datetime` raises
before any derived column is assigned when a timestamp is unparsable —
then the metric columns (both written in place), the sort (a fresh
frame), and the two pure aggregate structures. -/
def nach_merge_st (t : Store) (j : ℕ) (portale : List String) :
    Store × Except String (List ResultRow × Summary × List (String × PortalStat)) :=
  match add_time_analysis (readRes0 t j) with
  | .error e => (t, .error e)
  | .ok rowsT =>
    let s1 := schreib t j (.resT rowsT)
    let s2 := schreib s1 j (.res (calculate_extended_metrics (readResT s1 j)))
    let p3 := alloc s2 (.res (sort_values (readRes s2 j)))
    let result := readRes p3.1 p3.2
    (p3.1, .ok (result, summary_of result, analyze_portal_stats result portale))

/-- `analyze_msn_data` at the store level (app.py lines 374-456): the
merge phase of lines 378-421 followed by the enrichment, sort and
statistics of lines 422-456 on the `result` frame. -/
def analyze_msn_data_st (s0 : Store) (rI rS : ℕ) (portale : List String) :
    Store × Except String (List ResultRow × Summary × List (String × PortalStat)) :=
  let p := merge_phase_st s0 rI rS portale
  nach_merge_st p.1 p.2 portale

/-- All frames of the original store below index `n` survive unchanged
in `t`, which is at least that long — the invariant each pipeline step
preserves for the caller's frames. -/
def erhalten_unter (n : ℕ) (s t : Store) : Prop :=
  n ≤ t.length ∧ ∀ i, i < n → t[i]? = s[i]?

/-! ## Concrete rows used by the evaluation theorems below -/

/-- A merged-and-filled row created at 00:30 — its creation hour is 0. -/
def zeileMitternacht : ResultRow0 :=
  { markenname := "HNA", dokumentId := .s "1", inhaltstitel := "Mitternachtsartikel"
    quellId := "q", canonicalUrl := "c", veroeffentlichteUrl := "v", inhaltsstatus := "Published"
    datumBearbeitung := "02.01.2025, 08:00:00", erstellungsdatum := "01.01.2025, 00:30:00"
    seitenaufrufe := 10, eindeutigeBenutzer := 6, likes := 2, kommentare := 1 }

/-- A row whose creation timestamp is not in `%d.%m.%Y, %H:%M:%S`. -/
def zeileKaputt : ResultRow0 :=
  { zeileMitternacht with erstellungsdatum := "2025-01-01 10:00" }

/-- A row with a well-formed creation timestamp (07:00, a Wednesday). -/
def zeileGut : ResultRow0 :=
  { zeileMitternacht with erstellungsdatum := "01.01.2025, 07:00:00" }

/-- An enriched row with zero page views but five likes. -/
def zeileLikesOhneAufrufe : ResultRowT :=
  { toResultRow0 := { zeileGut with seitenaufrufe := 0, eindeutigeBenutzer := 0, likes := 5, kommentare := 0 }
    datum := ⟨1, 1, 2025, 7, 0, 0⟩, wochentag := "Wednesday", stunde := 7
    tageszeit := some "Morgen" }

/-- An enriched row with zero page views and zero unique users, likes and
comments (the shape an unmatched catalog row takes after `fillna(0)`). -/
def zeileAllesNull : ResultRowT :=
  { zeileLikesOhneAufrufe with
      toResultRow0 := { zeileGut with seitenaufrufe := 0, eindeutigeBenutzer := 0, likes := 0, kommentare := 0 } }

/-- An enriched row with zero page views but seven unique users. -/
def zeileBenutzerOhneAufrufe : ResultRowT :=
  { zeileLikesOhneAufrufe with
      toResultRow0 := { zeileGut with seitenaufrufe := 0, eindeutigeBenutzer := 7, likes := 0, kommentare := 0 } }

/-- First page-view row for document 1. -/
def aufrufZeile1 : SeitenRow := ⟨.s "1", "Erster Titel", 10, 6, 2, 1⟩

/-- Second page-view row for the same document. -/
def aufrufZeile2 : SeitenRow := ⟨.s "1", "Zweiter Titel", 5, 3, 1, 1⟩

/-- A catalog row for document 1 (an int64 key, cast to "1" by
`astype(str)`). -/
def katalogZeile : InhaltsRow :=
  { markenname := "HNA", dokumentId := .i 1, inhaltstitel := "Katalogtitel", quellId := "q"
    canonicalUrl := "c", veroeffentlichteUrl := "v", inhaltsstatus := "Published"
    datumBearbeitung := "02.01.2025, 08:00:00", erstellungsdatum := "01.01.2025, 07:00:00" }

/-- A catalog row for document 9, which no page-view row matches. -/
def katalogZeileOhneAufrufe : InhaltsRow :=
  { katalogZeile with dokumentId := .s "9", inhaltstitel := "Unbesucht" }

/-- The result row an unmatched catalog row (document 9) produces. -/
def zeileUnbesucht : ResultRow0 :=
  { markenname := "HNA", dokumentId := .s "9", inhaltstitel := "Unbesucht", quellId := "q"
    canonicalUrl := "c", veroeffentlichteUrl := "v", inhaltsstatus := "Published"
    datumBearbeitung := "02.01.2025, 08:00:00", erstellungsdatum := "01.01.2025, 07:00:00"
    seitenaufrufe := 0, eindeutigeBenutzer := 0, likes := 0, kommentare := 0 }

/-- A fully enriched result row with 10 page views. -/
def fertigeZeile1 : ResultRow :=
  { toResultRowT :=
      { toResultRow0 := { zeileGut with inhaltstitel := "Erste" }
        datum := ⟨1, 1, 2025, 7, 0, 0⟩, wochentag := "Wednesday", stunde := 7
        tageszeit := some "Morgen" }
    engagementRate := .num 30, uniqueVisitorRate := .num 60 }

/-- A second enriched result row, also with 10 page views (a tie). -/
def fertigeZeile2 : ResultRow :=
  { fertigeZeile1 with
      toResultRowT :=
        { toResultRow0 := { zeileGut with inhaltstitel := "Zweite" }
          datum := ⟨1, 1, 2025, 7, 0, 0⟩, wochentag := "Wednesday", stunde := 7
          tageszeit := some "Morgen" } }

/-! ## Claim theorems -/

/-- C1: the spec asserts half-open hour bins `[0,6) → Nacht,
[6,12) → Morgen, [12,18) → Mittag, [18,24) → Abend`, with hour 0 mapping
to Nacht and hour 6 to Morgen.  The `pd.cut` call uses the pandas
default right-closed bins `(0,6], (6,12], (12,18], (18,24]`: hour 0
falls in no bin (a null bucket), hour 6 lands in Nacht, hour 12 in
Morgen, and hour 18 in Mittag; only hour 23 → Abend agrees.  The last
conjunct evaluates the pipeline's own enrichment on a merged row created
at 00:30 with a perfectly parseable timestamp: its bucket is null. -/
theorem c1_tageszeit_abweichung :
    tageszeit_of 0 = none ∧ tageszeit_of 5 = some "Nacht"
    ∧ tageszeit_of 6 = some "Nacht" ∧ tageszeit_of 12 = some "Morgen"
    ∧ tageszeit_of 18 = some "Mittag" ∧ tageszeit_of 23 = some "Abend"
    ∧ (add_time_analysis [zeileMitternacht]).map (fun l => l.map (fun r => (r.stunde, r.tageszeit)))
        = .ok [(0, none)] := by decide

/-- C2: `fillna(0)` replaces only the NaN arising from `0/0`.  A row
with zero page views and a positive likes count gets an engagement rate
of `+inf`, not 0, and a row with zero page views and positive unique
users gets a `+inf` unique-visitor rate; the rates are 0 only when the
numerators are 0 as well. -/
theorem c2_engagement_inf :
    (calculate_extended_metrics [zeileLikesOhneAufrufe]).map (fun r => r.engagementRate) = [FVal.inf]
    ∧ (calculate_extended_metrics [zeileAllesNull]).map
        (fun r => (r.engagementRate, r.uniqueVisitorRate)) = [(FVal.num 0, FVal.num 0)]
    ∧ (calculate_extended_metrics [zeileBenutzerOhneAufrufe]).map (fun r => r.uniqueVisitorRate)
        = [FVal.inf]
    ∧ FVal.inf ≠ FVal.num 0 := by decide

/-- C5 counterexample: the claim says an unparsable timestamp is coerced
to a null time instead of raising.  `pd.to_datetime` is called without
`errors='coerce'`, so the enrichment of a table containing the
unparsable value `2025-01-01 10:00` raises a `ValueError` — it does not
return rows with a null time. -/
theorem c5_keine_koerzierung :
    add_time_analysis [zeileKaputt]
      = .error "time data 2025-01-01 10:00 does not match format %d.%m.%Y, %H:%M:%S" := by decide

/-- A fully parsing column yields `.ok`. -/
theorem to_datetime_strict_ok (vals : List String)
    (h : ∀ v ∈ vals, (parse_timestamp v).isSome = true) :
    ∃ ds, to_datetime_strict vals = .ok ds := by
  induction vals with
  | nil => exact ⟨[], rfl⟩
  | cons v vs ih =>
    obtain ⟨d, hd⟩ := Option.isSome_iff_exists.mp (h v (List.mem_cons_self v vs))
    obtain ⟨ds, hds⟩ := ih (fun w hw => h w (List.mem_cons_of_mem v hw))
    exact ⟨d :: ds, by simp [to_datetime_strict, hd, hds, Except.map]⟩

/-- A column with an unparsable value raises. -/
theorem to_datetime_strict_err (vals : List String)
    (h : ∃ v ∈ vals, parse_timestamp v = none) :
    ∃ e, to_datetime_strict vals = .error e := by
  induction vals with
  | nil => simp at h
  | cons v vs ih =>
    by_cases hv : parse_timestamp v = none
    · exact ⟨"time data " ++ v ++ " does not match format %d.%m.%Y, %H:%M:%S",
        by simp [to_datetime_strict, hv]⟩
    · obtain ⟨d, hd⟩ := Option.isSome_iff_exists.mp (Option.ne_none_iff_isSome.mp hv)
      obtain ⟨w, hw, hwn⟩ := h
      rcases List.mem_cons.mp hw with rfl | hwvs
      · exact absurd hwn hv
      · obtain ⟨e, he⟩ := ih ⟨w, hwvs, hwn⟩
        exact ⟨e, by simp [to_datetime_strict, hd, he, Except.map]⟩

/-- C5 (amended): the creation/update column is parsed with the fixed
format `%d.%m.%Y, %H:%M:%S`; when every value parses the enrichment
succeeds, and when any value does not parse `pd.to_datetime` (called
with its default `errors='raise'`) raises and the enrichment aborts —
no value is coerced to a null time. -/
theorem c5_parse_verhalten (rows : List ResultRow0) :
    ((∀ r ∈ rows, (parse_timestamp r.erstellungsdatum).isSome = true) →
        ∃ out, add_time_analysis rows = .ok out)
    ∧ ((∃ r ∈ rows, parse_timestamp r.erstellungsdatum = none) →
        ∃ e, add_time_analysis rows = .error e) := by
  constructor
  · intro h
    obtain ⟨ds, hds⟩ := to_datetime_strict_ok (rows.map (fun r => r.erstellungsdatum))
      (by simpa using fun r hr => h r hr)
    refine ⟨(rows.zip ds).map (fun p =>
        { toResultRow0 := p.1, datum := p.2, wochentag := day_name p.2, stunde := p.2.stunde,
          tageszeit := tageszeit_of p.2.stunde }), ?_⟩
    simp [add_time_analysis, hds, Except.map]
  · intro h
    obtain ⟨r, hr, hrn⟩ := h
    obtain ⟨e, he⟩ := to_datetime_strict_err (rows.map (fun r => r.erstellungsdatum))
      ⟨r.erstellungsdatum, List.mem_map_of_mem _ hr, hrn⟩
    exact ⟨e, by simp [add_time_analysis, he, Except.map]⟩

/-- C5 witness: a parsing row enriches, an unparsable one raises. -/
theorem c5_parse_verhalten_zeuge :
    (∃ out, add_time_analysis [zeileGut] = .ok out)
    ∧ (∃ e, add_time_analysis [zeileKaputt] = .error e) :=
  ⟨(c5_parse_verhalten [zeileGut]).1 (by decide),
   (c5_parse_verhalten [zeileKaputt]).2 ⟨zeileKaputt, by decide, by decide⟩⟩

/-- C6 counterexample: the claim says an empty source fails with a
`FileLoadError`.  `load_data` catches `pd.errors.EmptyDataError` and
raises a `DataValidationError` ("Die Datei enthält keine Daten")
instead; the `FileLoadError` kind is reserved for the `ParserError`
handler. -/
theorem c6_leere_datei :
    load_data (some "") = .error (.dataValidationError, "Die Datei enthält keine Daten")
    ∧ FehlerArt.dataValidationError ≠ FehlerArt.fileLoadError := by decide

/-- C6 (amended): an empty source (no non-blank line, pandas'
`EmptyDataError`) fails with a `DataValidationError`, while a malformed
delimiter structure (a body line with more fields than the header,
pandas' `ParserError`) fails with a `FileLoadError`. -/
theorem c6_fehlerarten (quelle : String) :
    (read_csv quelle = .error .emptyData →
        load_data (some quelle) = .error (.dataValidationError, "Die Datei enthält keine Daten"))
    ∧ (read_csv quelle = .error .parserError →
        load_data (some quelle) = .error (.fileLoadError, "Fehler beim Parsen der CSV-Datei")) := by
  constructor
  · intro h
    simp [load_data, load_data_body, h]
  · intro h
    simp [load_data, load_data_body, h]

/-- C6 witness: the empty source and a ragged CSV, evaluated. -/
theorem c6_fehlerarten_zeuge :
    load_data (some "") = .error (.dataValidationError, "Die Datei enthält keine Daten")
    ∧ load_data (some "a,b\n1,2,3") = .error (.fileLoadError, "Fehler beim Parsen der CSV-Datei") :=
  ⟨(c6_fehlerarten "").1 (by decide), (c6_fehlerarten "a,b\n1,2,3").2 (by decide)⟩

/-- The aggregated table has pairwise distinct document ids (its rows
are built from the deduplicated key list). -/
theorem agg_schluessel_nodup (rows : List SeitenRow) :
    ((aggregate_seitenaufrufe rows).map (fun a => a.docId)).Nodup := by
  have h : (aggregate_seitenaufrufe rows).map (fun a => a.docId) = group_keys rows := by
    unfold aggregate_seitenaufrufe
    rw [List.map_map]
    exact List.map_id' _
  rw [h]
  exact List.nodup_dedup _

/-- Against a right table with pairwise distinct keys, a key's filter is
the singleton (or empty) result of `find?`. -/
theorem filter_als_find (l : List AggRow) (k : CVal)
    (h : (l.map (fun a => a.docId)).Nodup) :
    l.filter (fun a => a.docId == k) = (l.find? (fun a => a.docId == k)).toList := by
  induction l with
  | nil => rfl
  | cons a l ih =>
    simp only [List.map_cons, List.nodup_cons] at h
    by_cases ha : a.docId = k
    · have hnil : l.filter (fun a => a.docId == k) = [] := by
        refine List.filter_eq_nil_iff.mpr (fun b hb => ?_)
        simp only [beq_iff_eq]
        intro hbk
        exact h.1 (by simpa [hbk, ha] using List.mem_map_of_mem (fun a => a.docId) hb)
      simp [List.filter_cons, List.find?_cons, ha, hnil]
    · simp [List.filter_cons, List.find?_cons, ha, ih h.2]

/-- A left join against a right table with pairwise distinct keys keeps
every left row exactly once, in order: the merge is the map pairing each
left row with the result of looking up its key. -/
theorem efficient_merge_als_map (cat : List InhaltsRow) (agg : List AggRow)
    (h : (agg.map (fun a => a.docId)).Nodup) :
    efficient_merge cat agg
      = cat.map (fun c => merged_row_of c (agg.find? (fun a => a.docId == c.dokumentId))) := by
  induction cat with
  | nil => rfl
  | cons c cat ih =>
    have hstep : efficient_merge (c :: cat) agg
        = (let ms := agg.filter (fun a => a.docId == c.dokumentId)
           if ms.isEmpty then [merged_row_of c none]
           else ms.map (fun a => merged_row_of c (some a))) ++ efficient_merge cat agg := by
      simp [efficient_merge, List.flatMap_cons]
    rw [hstep, ih, filter_als_find agg c.dokumentId h]
    cases hf : agg.find? (fun a => a.docId == c.dokumentId) with
    | none => simp [hf]
    | some a => simp [hf]

/-- C3: after the brand filter and the string casts, every remaining
catalog row appears exactly once, in order, in the merge output (the
aggregated right table has unique keys, so the left join is the map
pairing each catalog row with its key's lookup); and a row whose
document id no aggregated view row shares has 0 in all four numeric
fields after `fillna(0)`. -/
theorem c3_linker_join (cat : List InhaltsRow) (seiten : List SeitenRow) (portale : List String) :
    merge_result cat seiten portale
      = (cast_inhalt (filter_portale cat portale)).map
          (fun c => select_fillna (merged_row_of c
            ((aggregate_seitenaufrufe (cast_seiten seiten)).find?
              (fun a => a.docId == c.dokumentId))))
    ∧ ∀ r ∈ merge_result cat seiten portale,
        (∀ a ∈ aggregate_seitenaufrufe (cast_seiten seiten), a.docId ≠ r.dokumentId) →
          r.seitenaufrufe = 0 ∧ r.eindeutigeBenutzer = 0 ∧ r.likes = 0 ∧ r.kommentare = 0 := by
  have h1 : merge_result cat seiten portale
      = (cast_inhalt (filter_portale cat portale)).map
          (fun c => select_fillna (merged_row_of c
            ((aggregate_seitenaufrufe (cast_seiten seiten)).find?
              (fun a => a.docId == c.dokumentId)))) := by
    unfold merge_result optimize_memory_usage_inhalt optimize_memory_usage_seiten
    rw [efficient_merge_als_map _ _ (agg_schluessel_nodup _), List.map_map]
    rfl
  refine ⟨h1, fun r hr hkein => ?_⟩
  rw [h1] at hr
  obtain ⟨c, hcmem, rfl⟩ := List.mem_map.mp hr
  have hf : (aggregate_seitenaufrufe (cast_seiten seiten)).find?
      (fun a => a.docId == c.dokumentId) = none :=
    List.find?_eq_none.mpr (fun a ha => by simpa using hkein a ha)
  rw [hf]
  exact ⟨rfl, rfl, rfl, rfl⟩

/-- C3 witness: document 9 has no view rows; its merged row carries
zeros. -/
theorem c3_linker_join_zeuge :
    ∃ r ∈ merge_result [katalogZeileOhneAufrufe] [aufrufZeile1] ["HNA"],
      r.seitenaufrufe = 0 ∧ r.eindeutigeBenutzer = 0 ∧ r.likes = 0 ∧ r.kommentare = 0 :=
  ⟨zeileUnbesucht, by decide,
    (c3_linker_join [katalogZeileOhneAufrufe] [aufrufZeile1] ["HNA"]).2 zeileUnbesucht
      (by decide) (by decide)⟩

/-- C4 counterexample: the claim says aggregation retains the first
row's title as representative title.  The groupby selects only the four
numeric columns, so the aggregate for two rows of document 1 holds
exactly the key and the four sums — no title at all — and the title in
the merged output is the catalog title, not the views table's first
title. -/
theorem c4_titel_nicht_uebernommen :
    aggregate_seitenaufrufe (cast_seiten [aufrufZeile1, aufrufZeile2])
      = [{ docId := .s "1", seitenaufrufe := 15, eindeutigeBenutzer := 9, likes := 3,
           kommentare := 2 }]
    ∧ aufrufZeile1.titel = "Erster Titel"
    ∧ (merge_result [katalogZeile] [aufrufZeile1, aufrufZeile2] ["HNA"]).map
        (fun r => (r.inhaltstitel, r.seitenaufrufe)) = [("Katalogtitel", 15)]
    ∧ ("Katalogtitel" : String) ≠ "Erster Titel" := by decide

/-- C4 (amended): aggregation yields exactly one row per document id —
pairwise distinct keys, one for every input row's id — whose four
numeric fields are the sums over all rows sharing that id; the views
title column is dropped by the aggregation (aggregate rows consist of
the id and the four sums only), and the merged output's titles are the
catalog titles of the filtered catalog rows, in order. -/
theorem c4_aggregation (seiten : List SeitenRow) (cat : List InhaltsRow) (portale : List String) :
    ((aggregate_seitenaufrufe seiten).map (fun a => a.docId)).Nodup
    ∧ (∀ r ∈ seiten, ∃ a ∈ aggregate_seitenaufrufe seiten, a.docId = r.docId)
    ∧ (∀ a ∈ aggregate_seitenaufrufe seiten,
        a.seitenaufrufe
            = ((seiten.filter (fun r => r.docId == a.docId)).map (fun r => r.seitenaufrufe)).sum
        ∧ a.eindeutigeBenutzer
            = ((seiten.filter (fun r => r.docId == a.docId)).map
                (fun r => r.eindeutigeBenutzer)).sum
        ∧ a.likes = ((seiten.filter (fun r => r.docId == a.docId)).map (fun r => r.likes)).sum
        ∧ a.kommentare
            = ((seiten.filter (fun r => r.docId == a.docId)).map (fun r => r.kommentare)).sum)
    ∧ (merge_result cat seiten portale).map (fun r => r.inhaltstitel)
        = (filter_portale cat portale).map (fun c => c.inhaltstitel) := by
  refine ⟨agg_schluessel_nodup seiten, fun r hr => ?_, fun a ha => ?_, ?_⟩
  · refine ⟨_, List.mem_map_of_mem _ (List.mem_dedup.mpr (List.mem_map_of_mem _ hr)), rfl⟩
  · obtain ⟨k, hk, rfl⟩ := List.mem_map.mp ha
    exact ⟨rfl, rfl, rfl, rfl⟩
  · unfold merge_result optimize_memory_usage_inhalt optimize_memory_usage_seiten
    rw [efficient_merge_als_map _ _ (agg_schluessel_nodup _)]
    simp [cast_inhalt, List.map_map, Function.comp, select_fillna, merged_row_of]

/-- C4 witness: both view rows of document 1 are represented in the
aggregate. -/
theorem c4_aggregation_zeuge :
    ∃ a ∈ aggregate_seitenaufrufe [aufrufZeile1, aufrufZeile2], a.docId = aufrufZeile1.docId :=
  (c4_aggregation [aufrufZeile1, aufrufZeile2] [katalogZeile] ["HNA"]).2.1 aufrufZeile1 (by decide)

/-- C7 counterexample: the claim says the sort is stable.  The sort is
`sort_values` with numpy's default quicksort, whose contract guarantees
only a permutation ordered descending by page views.  For two rows tied
at 10 page views, the swapped output satisfies that contract while
breaking the claimed tie order — so stability does not follow from the
code. -/
theorem c7_keine_stabilitaet :
    sort_values_vertrag [fertigeZeile1, fertigeZeile2] [fertigeZeile2, fertigeZeile1]
    ∧ ¬ ties_erhalten [fertigeZeile1, fertigeZeile2] [fertigeZeile2, fertigeZeile1] := by
  refine ⟨⟨by decide, by decide⟩, fun h => absurd (h 10) (by decide)⟩

/-- C7 (amended): the final result table is sorted descending by page
views and is a permutation of the enriched merge-step rows; which order
tied rows appear in is all the sort's contract leaves open. -/
theorem c7_sortierung (cat : List InhaltsRow) (seiten : List SeitenRow) (portale : List String)
    (ausgabe : List ResultRow) (summe : Summary) (stats : List (String × PortalStat))
    (h : analyze_msn_data cat seiten portale = .ok (ausgabe, summe, stats)) :
    ausgabe.Pairwise absteigend
    ∧ ∃ vorher, enriched_rows cat seiten portale = .ok vorher
        ∧ ausgabe.Perm vorher ∧ sort_values_vertrag vorher ausgabe := by
  unfold analyze_msn_data at h
  cases he : enriched_rows cat seiten portale with
  | error e => rw [he] at h; exact absurd h (by simp)
  | ok rows =>
    rw [he] at h
    simp only [Except.ok.injEq, Prod.mk.injEq] at h
    obtain ⟨h1, -, -⟩ := h
    subst h1
    have hsort : (sort_values rows).Pairwise absteigend :=
      List.sorted_insertionSort absteigend rows
    have hperm : (sort_values rows).Perm rows := List.perm_insertionSort absteigend rows
    exact ⟨hsort, rows, rfl, hperm, hperm, hsort⟩

/-- C7 witness: the analysis of empty tables, evaluated. -/
theorem c7_sortierung_zeuge :
    List.Pairwise absteigend ([] : List ResultRow)
    ∧ ∃ vorher, enriched_rows [] [] ["HNA"] = .ok vorher
        ∧ List.Perm ([] : List ResultRow) vorher
        ∧ sort_values_vertrag vorher [] :=
  c7_sortierung [] [] ["HNA"] []
    { gesamtzahlArtikel := 0, artikelMitAufrufen := 0, gesamteSeitenaufrufe := 0
      durchschnittSeitenaufrufe := .nan, gesamteLikes := 0, gesamteKommentare := 0
      durchschnittlEngagementRate := .nan }
    [("HNA", { artikel := 0, gesamtaufrufe := 0, durchschnitt := 0
               topTageszeit := "Keine Daten", durchschnittlEngagement := .num 0 })]
    (by decide)

/-- C8: the `for portal in portale` loop gives every configured brand an
entry keyed by its name, and a brand with no matching result rows gets
the literal record with zero article count, zero totals and means and
the dominant time of day "Keine Daten" — it is never omitted. -/
theorem c8_portal_stats (result : List ResultRow) (portale : List String) :
    ((analyze_portal_stats result portale).map Prod.fst = portale)
    ∧ ∀ p ∈ portale, (result.filter (fun r => r.markenname == p)).isEmpty = true →
        (analyze_portal_stats result portale).lookup p
          = some { artikel := 0, gesamtaufrufe := 0, durchschnitt := 0
                   topTageszeit := "Keine Daten", durchschnittlEngagement := .num 0 } := by
  constructor
  · unfold analyze_portal_stats
    rw [List.map_map]
    exact List.map_id' _
  · intro p hp hleer
    induction portale with
    | nil => simp at hp
    | cons q rest ih =>
      rcases List.mem_cons.mp hp with rfl | hrest
      · simp [analyze_portal_stats, List.lookup, portal_stat_of, hleer]
      · by_cases hq : q = p
        · subst hq
          simp [analyze_portal_stats, List.lookup, portal_stat_of, hleer]
        · have hne : (p == q) = false := beq_eq_false_iff_ne.mpr (fun hpq => hq hpq.symm)
          simpa [analyze_portal_stats, List.lookup, hne] using ih hrest

/-- C8 witness: with an empty result table, every configured brand —
here "24vita" — still appears, carrying the zero record. -/
theorem c8_portal_stats_zeuge :
    (analyze_portal_stats [] ["HNA", "24vita"]).lookup "24vita"
      = some { artikel := 0, gesamtaufrufe := 0, durchschnitt := 0
               topTageszeit := "Keine Daten", durchschnittlEngagement := .num 0 } :=
  (c8_portal_stats [] ["HNA", "24vita"]).2 "24vita" (by decide) (by decide)

/-- The running minimum is at most its starting value. -/
theorem list_min_le_self (v : Int) (vs : List Int) : list_min v vs ≤ v := by
  induction vs generalizing v with
  | nil => exact le_refl v
  | cons w vs ih => exact le_trans (ih (min v w)) (min_le_left v w)

/-- The running minimum is a lower bound for every element. -/
theorem list_min_le (v : Int) (vs : List Int) : ∀ x ∈ v :: vs, list_min v vs ≤ x := by
  induction vs generalizing v with
  | nil =>
    intro x hx
    rw [List.mem_singleton.mp hx]
    exact le_refl v
  | cons w vs ih =>
    intro x hx
    rcases List.mem_cons.mp hx with rfl | hx2
    · exact le_trans (le_trans (list_min_le_self (min x w) vs) (min_le_left x w)) (le_refl x)
    · rcases List.mem_cons.mp hx2 with rfl | hx3
      · exact le_trans (list_min_le_self (min v x) vs) (min_le_right v x)
      · exact ih (min v w) x (List.mem_cons_of_mem _ hx3)

/-- The running maximum is at least its starting value. -/
theorem le_list_max_self (v : Int) (vs : List Int) : v ≤ list_max v vs := by
  induction vs generalizing v with
  | nil => exact le_refl v
  | cons w vs ih => exact le_trans (le_max_left v w) (ih (max v w))

/-- The running maximum is an upper bound for every element. -/
theorem le_list_max (v : Int) (vs : List Int) : ∀ x ∈ v :: vs, x ≤ list_max v vs := by
  induction vs generalizing v with
  | nil =>
    intro x hx
    rw [List.mem_singleton.mp hx]
    exact le_refl v
  | cons w vs ih =>
    intro x hx
    rcases List.mem_cons.mp hx with rfl | hx2
    · exact le_trans (le_trans (le_refl x) (le_max_left x w)) (le_list_max_self (max x w) vs)
    · rcases List.mem_cons.mp hx2 with rfl | hx3
      · exact le_trans (le_max_right v x) (le_list_max_self (max v x) vs)
      · exact ih (max v w) x (List.mem_cons_of_mem _ hx3)

/-- Two's-complement wrap-around is the identity on values already in
range — an `astype(np.int<b>)` guarded by strict bound checks does not
change any cell. -/
theorem astype_int_id (b : ℕ) (v : Int) (hb : 1 ≤ b)
    (hlo : -(2 ^ (b - 1)) ≤ v) (hhi : v < 2 ^ (b - 1)) : astype_int b v = v := by
  unfold astype_int
  have hpow : (2 : ℤ) ^ b = 2 ^ (b - 1) * 2 := by
    rw [← pow_succ]
    congr 1
    omega
  have h0 : (0 : ℤ) ≤ v + 2 ^ (b - 1) := by linarith
  have hlt : v + 2 ^ (b - 1) < 2 ^ b := by rw [hpow]; linarith
  rw [Int.emod_eq_of_lt h0 hlt]
  ring

/-- A map whose function fixes every element of the list is the
identity. -/
theorem map_id_von (l : List Int) (f : Int → Int) (h : ∀ x ∈ l, f x = x) : l.map f = l := by
  induction l with
  | nil => rfl
  | cons x xs ih =>
    simp [h x (List.mem_cons_self x xs), ih (fun y hy => h y (List.mem_cons_of_mem x hy))]

/-- The optimizer preserves every cell of a non-float column: object
columns only gain a categorical flag, and the strict `iinfo` bound
checks put every integer strictly inside the target width, where the
cast is the identity. -/
theorem optimize_spalte_erhaelt (sp : Spalte) (h : sp.istFloat = false) :
    (optimize_spalte sp).werte = sp.werte := by
  match sp with
  | .obj true z => rfl
  | .obj false z =>
    simp only [optimize_spalte]
    split <;> rfl
  | .floats b32 z => simp [Spalte.istFloat] at h
  | .ints b [] => rfl
  | .ints b (v :: vs) =>
    simp only [optimize_spalte]
    have hdown : ∀ w : ℕ, 1 ≤ w →
        iinfo_min w < list_min v vs → list_max v vs < iinfo_max w →
        ((v :: vs).map (astype_int w)) = v :: vs := by
      intro w hw hmn hmx
      refine map_id_von _ _ (fun x hx => ?_)
      have h1 := list_min_le v vs x hx
      have h2 := le_list_max v vs x hx
      unfold iinfo_min at hmn
      unfold iinfo_max at hmx
      exact astype_int_id w x hw (by omega) (by omega)
    split
    case isTrue hc =>
      simp only [Spalte.werte]
      rw [hdown 8 (by norm_num) hc.1 hc.2]
    case isFalse hc1 =>
      split
      case isTrue hc =>
        simp only [Spalte.werte]
        rw [hdown 16 (by norm_num) hc.1 hc.2]
      case isFalse hc2 =>
        split
        case isTrue hc =>
          simp only [Spalte.werte]
          rw [hdown 32 (by norm_num) hc.1 hc.2]
        case isFalse hc3 => rfl

/-- C9 (amended): `optimize_memory_usage` is column-count preserving,
and on every non-float column it is a pure storage rewrite — each cell
value of the optimized column equals the original.  Float columns are
the exception: they are cast to float32 (see the counterexample). -/
theorem c9_nichtfloat_erhalten (df : List Spalte) (i : ℕ)
    (h1 : i < (optimize_memory_usage df).length) (h2 : i < df.length)
    (hnf : (df.get ⟨i, h2⟩).istFloat = false) :
    ((optimize_memory_usage df).get ⟨i, h1⟩).werte = (df.get ⟨i, h2⟩).werte := by
  have hget : (optimize_memory_usage df).get ⟨i, h1⟩ = optimize_spalte (df.get ⟨i, h2⟩) := by
    simp [optimize_memory_usage]
  rw [hget]
  exact optimize_spalte_erhaelt _ hnf

/-- C9 witness: an int64 column within int8 bounds is downcast with
every cell intact. -/
theorem c9_nichtfloat_erhalten_zeuge :
    ((optimize_memory_usage [Spalte.ints 64 [120, -7]]).get ⟨0, by decide⟩).werte
      = (([Spalte.ints 64 [120, -7]] : List Spalte).get ⟨0, by decide⟩).werte :=
  c9_nichtfloat_erhalten [Spalte.ints 64 [120, -7]] 0 (by decide) (by decide) (by decide)

/-- C9 counterexample: the claim says the optimizer changes no cell
value.  Float columns are cast to float32 (app.py lines 120-122), and
the float64 cell 0.1 is not representable in float32: the optimizer
rewrites it to 13421773/134217728 (the float32 nearest to 0.1), a
different value. -/
theorem c9_float32_rundung :
    optimize_memory_usage [Spalte.floats false [FVal.num (1/10)]]
      = [Spalte.floats true [FVal.num (13421773/134217728)]]
    ∧ FVal.num ((13421773 : ℚ)/134217728) ≠ FVal.num (1/10) := by
  have hlog1 : mylog2 1 = 0 := by decide
  have hlog10 : mylog2 10 = 3 := by decide
  have hz3 : zweiHoch (-3) = (1/8 : ℚ) := by
    unfold zweiHoch
    rw [if_neg (by norm_num : ¬ (0:ℤ) ≤ -3)]
    norm_num
    rw [show ((3:ℤ)).toNat = 3 from rfl]
    norm_num
  have hz27 : zweiHoch (-27) = (1/134217728 : ℚ) := by
    unfold zweiHoch
    rw [if_neg (by norm_num : ¬ (0:ℤ) ≤ -27)]
    norm_num
    rw [show ((27:ℤ)).toNat = 27 from rfl]
    norm_num
  have he0 : ((mylog2 (1/10 : ℚ).num.natAbs : ℤ) - (mylog2 (1/10 : ℚ).den : ℤ)) = -3 := by
    rw [show (1/10 : ℚ).num.natAbs = 1 by norm_num, show (1/10 : ℚ).den = 10 by norm_num,
      hlog1, hlog10]
    norm_num
  have hexp : binExpQ (1/10 : ℚ) = -4 := by
    unfold binExpQ
    rw [he0, hz3, if_neg (by norm_num : ¬ ((1:ℚ)/8 ≤ 1/10))]
    norm_num
  have hse : f32_scale_exp (1/10 : ℚ) = -27 := by
    unfold f32_scale_exp
    rw [hexp]
    norm_num
  have hrh : rhe ((1/10 : ℚ) / (1/134217728)) = 13421773 := by
    rw [show ((1/10 : ℚ) / (1/134217728)) = 67108864/5 by norm_num]
    unfold rhe
    norm_num
  have hpos : f32_runden_pos (1/10 : ℚ) = 13421773/134217728 := by
    unfold f32_runden_pos
    rw [hse, hz27, hrh]
    norm_num
  have habs : (if (1/10 : ℚ) < 0 then -(1/10 : ℚ) else (1/10 : ℚ)) = 1/10 :=
    if_neg (by norm_num)
  have hq : f32_runden_q (1/10 : ℚ) = .num (13421773/134217728) := by
    unfold f32_runden_q
    rw [if_neg (by norm_num : ¬ (1/10 : ℚ) = 0), habs, hpos,
      if_neg ?hinf, if_pos (by norm_num : (0:ℚ) < 1/10)]
    case hinf =>
      unfold zweiHoch
      rw [if_pos (by norm_num : (0:ℤ) ≤ 128)]
      norm_num
      rw [show ((128:ℤ)).toNat = 128 from rfl]
      norm_num
  constructor
  · simp only [optimize_memory_usage, List.map_cons, List.map_nil, optimize_spalte, f32_runden]
    rw [hq]
  · simp only [ne_eq, FVal.num.injEq]
    norm_num

/-- A store preserves itself. -/
theorem erhalten_refl (n : ℕ) (s : Store) (h : n ≤ s.length) : erhalten_unter n s s :=
  ⟨h, fun _ _ => rfl⟩

/-- Allocating a fresh frame touches no existing cell. -/
theorem erhalten_alloc {n : ℕ} {s t : Store} (v : PWert) (h : erhalten_unter n s t) :
    erhalten_unter n s (alloc t v).1 := by
  refine ⟨?_, fun i hi => ?_⟩
  · have hlen : (alloc t v).1.length = t.length + 1 := by simp [alloc]
    rw [hlen]
    exact le_trans h.1 (Nat.le_succ _)
  · have hlt : i < t.length := lt_of_lt_of_le hi h.1
    rw [show (alloc t v).1 = t ++ [v] from rfl, List.getElem?_append_left hlt]
    exact h.2 i hi

/-- The reference a fresh allocation returns lies beyond the preserved
prefix. -/
theorem alloc_ref {n : ℕ} {s t : Store} (v : PWert) (h : erhalten_unter n s t) :
    n ≤ (alloc t v).2 := h.1

/-- Writing to a frame beyond the preserved prefix touches no cell of
it. -/
theorem erhalten_schreib {n : ℕ} {s t : Store} {j : ℕ} (v : PWert) (hj : n ≤ j)
    (h : erhalten_unter n s t) : erhalten_unter n s (schreib t j v) := by
  refine ⟨?_, fun i hi => ?_⟩
  · rw [show (schreib t j v).length = t.length from by simp [schreib]]
    exact h.1
  · rw [show schreib t j v = t.set j v from rfl, List.getElem?_set_ne (by omega)]
    exact h.2 i hi

/-- The conditional `set_index` step of `efficient_merge` — keep the
frame or allocate a fresh one — touches no existing cell either way. -/
theorem erhalten_wenn {n : ℕ} {s t : Store} (c : Prop) [Decidable c] (r : ℕ) (v : PWert)
    (h : erhalten_unter n s t) :
    erhalten_unter n s (if c then (t, r) else alloc t v).1 := by
  split
  · exact h
  · exact erhalten_alloc _ h

/-- Every step of the merge phase allocates a fresh frame or writes to
one allocated during the phase, so the caller's frames survive into the
phase's final store, and the returned `result` reference is fresh. -/
theorem merge_phase_st_erhalten (s0 : Store) (rI rS : ℕ) (portale : List String) :
    erhalten_unter s0.length s0 (merge_phase_st s0 rI rS portale).1
    ∧ s0.length ≤ (merge_phase_st s0 rI rS portale).2 := by
  unfold merge_phase_st
  refine ⟨?_, ?_⟩
  · lift_lets
    extract_lets p1 p2 p3 s4 s5 p6 p7 p8 p9 p10 p11 p12 p13 s14
    have h0 : erhalten_unter s0.length s0 s0 := erhalten_refl _ _ (Nat.le_refl _)
    have h1 : erhalten_unter s0.length s0 p1.1 := erhalten_alloc _ h0
    have h2 : erhalten_unter s0.length s0 p2.1 := erhalten_alloc _ h1
    have r2 : s0.length ≤ p2.2 := alloc_ref _ h1
    have h3 : erhalten_unter s0.length s0 p3.1 := erhalten_alloc _ h2
    have r3 : s0.length ≤ p3.2 := alloc_ref _ h2
    have h4 : erhalten_unter s0.length s0 s4 := erhalten_schreib _ r3 h3
    have h5 : erhalten_unter s0.length s0 s5 := erhalten_schreib _ r2 h4
    have h6 : erhalten_unter s0.length s0 p6.1 := erhalten_alloc _ h5
    have h7 : erhalten_unter s0.length s0 p7.1 := erhalten_alloc _ h6
    have h8 : erhalten_unter s0.length s0 p8.1 := erhalten_alloc _ h7
    have h9 : erhalten_unter s0.length s0 p9.1 := by
      unfold p9
      exact erhalten_wenn _ _ _ h8
    have h10 : erhalten_unter s0.length s0 p10.1 := by
      unfold p10
      exact erhalten_wenn _ _ _ h9
    have h11 : erhalten_unter s0.length s0 p11.1 := erhalten_alloc _ h10
    have h12 : erhalten_unter s0.length s0 p12.1 := erhalten_alloc _ h11
    have h13 : erhalten_unter s0.length s0 p13.1 := erhalten_alloc _ h12
    have r13 : s0.length ≤ p13.2 := alloc_ref _ h12
    dsimp only
    unfold s14
    exact erhalten_schreib _ r13 h13
  · lift_lets
    extract_lets p1 p2 p3 s4 s5 p6 p7 p8 p9 p10 p11 p12 p13 s14
    have h0 : erhalten_unter s0.length s0 s0 := erhalten_refl _ _ (Nat.le_refl _)
    have h1 : erhalten_unter s0.length s0 p1.1 := erhalten_alloc _ h0
    have h2 : erhalten_unter s0.length s0 p2.1 := erhalten_alloc _ h1
    have r2 : s0.length ≤ p2.2 := alloc_ref _ h1
    have h3 : erhalten_unter s0.length s0 p3.1 := erhalten_alloc _ h2
    have r3 : s0.length ≤ p3.2 := alloc_ref _ h2
    have h4 : erhalten_unter s0.length s0 s4 := erhalten_schreib _ r3 h3
    have h5 : erhalten_unter s0.length s0 s5 := erhalten_schreib _ r2 h4
    have h6 : erhalten_unter s0.length s0 p6.1 := erhalten_alloc _ h5
    have h7 : erhalten_unter s0.length s0 p7.1 := erhalten_alloc _ h6
    have h8 : erhalten_unter s0.length s0 p8.1 := erhalten_alloc _ h7
    have h9 : erhalten_unter s0.length s0 p9.1 := by
      unfold p9
      exact erhalten_wenn _ _ _ h8
    have h10 : erhalten_unter s0.length s0 p10.1 := by
      unfold p10
      exact erhalten_wenn _ _ _ h9
    have h11 : erhalten_unter s0.length s0 p11.1 := erhalten_alloc _ h10
    have h12 : erhalten_unter s0.length s0 p12.1 := erhalten_alloc _ h11
    dsimp only
    unfold p13
    exact alloc_ref _ h12

/-- Whatever the merge phase produced, the enrichment phase only writes
to the `result` frame (beyond the preserved prefix) and allocates the
sorted frame, so it too preserves the caller's frames. -/
theorem nach_merge_st_erhalten (n : ℕ) (s t : Store) (j : ℕ) (portale : List String)
    (h : erhalten_unter n s t) (hj : n ≤ j) :
    erhalten_unter n s (nach_merge_st t j portale).1 := by
  unfold nach_merge_st
  cases hat : add_time_analysis (readRes0 t j) with
  | error e => exact h
  | ok rowsT =>
    dsimp only
    exact erhalten_alloc _ (erhalten_schreib _ hj (erhalten_schreib _ hj h))

/-- C10: `analyze_msn_data` never mutates its two input frames — both
are copied (inside `optimize_memory_usage`) before any filtering, key
casting, or column assignment, and every later write targets a frame
allocated during the run.  Whether the analysis returns or raises during
time analysis, the caller's catalog and page-view frames hold exactly
the values they held before the call. -/
theorem c10_keine_mutation (s : Store) (rI rS : ℕ) (portale : List String)
    (hI : rI < s.length) (hS : rS < s.length) :
    ((analyze_msn_data_st s rI rS portale).1)[rI]? = s[rI]?
    ∧ ((analyze_msn_data_st s rI rS portale).1)[rS]? = s[rS]? := by
  have hm := merge_phase_st_erhalten s rI rS portale
  have hfinal := nach_merge_st_erhalten s.length s (merge_phase_st s rI rS portale).1
    (merge_phase_st s rI rS portale).2 portale hm.1 hm.2
  exact ⟨hfinal.2 rI hI, hfinal.2 rS hS⟩

/-- C10 witness: a two-frame store, analyzed; both input cells are
unchanged. -/
theorem c10_keine_mutation_zeuge :
    ((analyze_msn_data_st [PWert.inh [], PWert.sei []] 0 1 ["HNA"]).1)[0]?
        = ([PWert.inh [], PWert.sei []] : Store)[0]?
    ∧ ((analyze_msn_data_st [PWert.inh [], PWert.sei []] 0 1 ["HNA"]).1)[1]?
        = ([PWert.inh [], PWert.sei []] : Store)[1]? :=
  c10_keine_mutation [PWert.inh [], PWert.sei []] 0 1 ["HNA"] (by decide) (by decide)
